import Mathlib

/-!
Shallow embedding of the issue-synchronization core of the devtools
repository: the bug-manager transformation functions
(`calculatePriority`, `getSentryLabels`, `prepareBugDetails`), the
configuration data model with its load-time legacy migration
(`migrateConfig`), instance management (`removeLinearInstance`,
`removeSentryInstance`), connection/mapping management
(`addProjectMapping`), the sink label store semantics behind
`GetOrCreateLabel`, the sink-call trace of the interactive `syncBugs`
workflow, and the query parameters of `GetUnresolvedIssues`.
Go maps are modelled as association lists, Go `int` as `Int`, and the
external APIs as explicit oracle/state values.
-/

/-- SentryIssue mirrors the fields of the Go struct `SentryIssue`
(internal/modules/bugmanager sentry client) that the modelled
functions read: identifiers, title, telemetry counts, level and
platform.  The time stamps and the free-form metadata map feed only
the prose description, which no claim touches, and are omitted. -/
structure SentryIssue where
  id : String
  shortId : String
  title : String
  culprit : String
  permalink : String
  count : String
  userCount : Int
  level : String
  platform : String
  status : String
  deriving Repr, DecidableEq

/-- calculatePriority mirrors `Module.calculatePriority` in
internal/modules/bugmanager/module.go: base priority from the level
switch (fatal/critical 1, error 2, warning 3, info/debug 4, default 3),
then the user-impact adjustment (count > 100 and base > 1 gives 1,
else count > 50 and base > 2 gives 2). -/
def calculatePriority (issue : SentryIssue) : Int :=
  let basePriority : Int :=
    match issue.level with
    | "fatal" => 1
    | "critical" => 1
    | "error" => 2
    | "warning" => 3
    | "info" => 4
    | "debug" => 4
    | _ => 3
  if issue.userCount > 100 ∧ basePriority > 1 then 1
  else if issue.userCount > 50 ∧ basePriority > 2 then 2
  else basePriority

/-- getSentryLabels mirrors `Module.getSentryLabels`: the level and
platform labels, plus high-impact when the user count exceeds 100,
else medium-impact when it exceeds 50. -/
def getSentryLabels (issue : SentryIssue) : List String :=
  let labels := ["level:" ++ issue.level, "platform:" ++ issue.platform]
  if issue.userCount > 100 then labels ++ ["high-impact"]
  else if issue.userCount > 50 then labels ++ ["medium-impact"]
  else labels

/-- BugDetails mirrors the Go struct `BugDetails` (title, description,
priority); the description string is built by prose formatting no
claim touches and is not modelled. -/
structure BugDetails where
  title : String
  priority : Int
  deriving Repr, DecidableEq

/-- prepareBugDetails mirrors the result of `Module.prepareBugDetails`:
the title is formatted as `[Sentry <shortId>] <title>` and the priority
comes from `calculatePriority`. -/
def prepareBugDetails (issue : SentryIssue) : BugDetails :=
  { title := "[Sentry " ++ issue.shortId ++ "] " ++ issue.title
    priority := calculatePriority issue }

/-- BugManagerProjectMapping mirrors the Go config struct of the same
name: one association of a Sentry org/project with a Linear
team/project plus default labels. -/
structure BugManagerProjectMapping where
  sentryOrganization : String
  sentryProject : String
  linearTeamId : String
  linearProjectId : String
  linearProjectName : String
  defaultLabels : List String
  deriving Repr, DecidableEq

/-- allLabels mirrors the label aggregation line of `Module.syncBugs`
(`allLabels := append(selectedMapping.DefaultLabels,
m.getSentryLabels(*issueDetails)...)`): the label names submitted to
get-or-create for the issue being synced. -/
def allLabels (mapping : BugManagerProjectMapping) (issue : SentryIssue) : List String :=
  mapping.defaultLabels ++ getSentryLabels issue

/-- specPriorityBase restates, in the words of the specification, the
base severity-to-priority table: fatal and critical map to 1, error
to 2, warning to 3, info and debug to 4. -/
def specPriorityBase (level : String) : Int :=
  if level = "fatal" ∨ level = "critical" then 1
  else if level = "error" then 2
  else if level = "warning" then 3
  else 4

/-- specPriority restates the claimed derived priority: an affected-user
count above 100 forces 1, a count above 50 caps the base at 2, and
otherwise the base stands. -/
def specPriority (issue : SentryIssue) : Int :=
  if issue.userCount > 100 then 1
  else if issue.userCount > 50 then min (specPriorityBase issue.level) 2
  else specPriorityBase issue.level

/-- SentryInstance mirrors the Go config struct of the same name
(name, api key, base URL). -/
structure SentryInstance where
  name : String
  apiKey : String
  baseURL : String
  deriving Repr, DecidableEq

/-- SentryProjectCfg mirrors the Go legacy config struct
`SentryProject` (organization slug, project slug, linked Linear
project id). -/
structure SentryProjectCfg where
  organizationSlug : String
  projectSlug : String
  linearProjectId : String
  deriving Repr, DecidableEq

/-- LinearInstance mirrors the Go config struct of the same name
(name, api key). -/
structure LinearInstance where
  name : String
  apiKey : String
  deriving Repr, DecidableEq

/-- LinearProjectCfg mirrors the Go legacy config struct
`LinearProject` (team id, project id, project name, default labels). -/
structure LinearProjectCfg where
  teamId : String
  projectId : String
  projectName : String
  labels : List String
  deriving Repr, DecidableEq

/-- BugManagerConnection mirrors the Go config struct of the same
name: a named pairing of a Linear instance key and a Sentry instance
key with its project mappings. -/
structure BugManagerConnection where
  name : String
  linearInstance : String
  sentryInstance : String
  projectMappings : List BugManagerProjectMapping
  deriving Repr, DecidableEq

/-- SentryConfig mirrors the Go config section: the legacy flat api
key, base URL and project table, and the multi-instance map (an
association list keyed by instance key). -/
structure SentryConfig where
  apiKey : String
  baseURL : String
  projects : List (String × SentryProjectCfg)
  instances : List (String × SentryInstance)
  deriving Repr, DecidableEq

/-- LinearConfig mirrors the Go config section: the legacy flat api
key and project table, and the multi-instance map. -/
structure LinearConfig where
  apiKey : String
  projects : List (String × LinearProjectCfg)
  instances : List (String × LinearInstance)
  deriving Repr, DecidableEq

/-- Config gathers the sections of the Go `Config` struct that the
synchronization core reads: the Sentry and Linear sections and the
bug-manager connection list. -/
structure Config where
  sentry : SentryConfig
  linear : LinearConfig
  connections : List BugManagerConnection
  deriving Repr, DecidableEq

/-- lookupA is association-list lookup, standing in for Go map
indexing with comma-ok. -/
def lookupA {α : Type} (l : List (String × α)) (k : String) : Option α :=
  (l.find? (fun p => p.1 == k)).map (fun p => p.2)

/-- defaultSentryBaseURL is the default base URL that `Load` installs
when the config has none. -/
def defaultSentryBaseURL : String := "https://sentry.io/api/0"

/-- legacyMappings is the list of project mappings that the legacy
migration in `Load` derives from the flat tables: one mapping per
legacy Sentry project entry whose `linear_project_id` resolves in the
legacy Linear project table (unresolvable entries are skipped by the
comma-ok lookup in the loop). -/
def legacyMappings (cfg : Config) : List BugManagerProjectMapping :=
  cfg.sentry.projects.filterMap (fun p =>
    match lookupA cfg.linear.projects p.2.linearProjectId with
    | some lp => some
        { sentryOrganization := p.2.organizationSlug
          sentryProject := p.2.projectSlug
          linearTeamId := lp.teamId
          linearProjectId := lp.projectId
          linearProjectName := lp.projectName
          defaultLabels := lp.labels }
    | none => none)

/-- defaultConnection is the single Connection that the legacy
migration synthesizes: named Default Connection, referencing the
default instance of each kind, and carrying the given mappings. -/
def defaultConnection (mappings : List BugManagerProjectMapping) : BugManagerConnection :=
  { name := "Default Connection"
    linearInstance := "default"
    sentryInstance := "default"
    projectMappings := mappings }

/-- migrateBaseURL is the base-URL defaulting step of `Load`: install
the default Sentry base URL when the field is empty. -/
def migrateBaseURL (s : String) : String :=
  if s = "" then defaultSentryBaseURL else s

/-- migrateInstances is the per-kind legacy-credential step of `Load`:
when the legacy api key is non-empty and the instance map is empty,
synthesize the single `default` entry carrying the given instance
value; otherwise leave the map alone. -/
def migrateInstances {α : Type} (apiKey : String) (v : α)
    (insts : List (String × α)) : List (String × α) :=
  if apiKey ≠ "" ∧ insts.isEmpty then [("default", v)] else insts

/-- migrateConnections is the legacy-mapping step of `Load`: when no
connections exist and the legacy Sentry project table is non-empty,
synthesize one Default Connection aggregating the resolvable legacy
mappings — unless none resolved, in which case nothing is added. -/
def migrateConnections (conns : List BugManagerConnection)
    (sprojects : List (String × SentryProjectCfg))
    (mappings : List BugManagerProjectMapping) : List BugManagerConnection :=
  if conns = [] ∧ sprojects ≠ [] then
    if mappings = [] then conns else [defaultConnection mappings]
  else conns

/-- migrateConfig embeds the normalization and legacy migration that
`config.Load` performs after unmarshalling (config/config.go): install
the default Sentry base URL when empty; when the legacy Sentry api key
is non-empty and no instances exist, synthesize the `default` Sentry
instance carrying the legacy credential and the (defaulted) base URL;
likewise for Linear; and when no connections exist and the legacy
Sentry project table is non-empty, aggregate all resolvable legacy
mappings into one synthesized Default Connection (only when at least
one mapping resolved).  The nil-to-empty map normalizations of `Load`
are identities on the association-list model, and hoisting the pure
mapping computation out of its guard does not change the result. -/
def migrateConfig (cfg : Config) : Config :=
  let sentryBaseURL := migrateBaseURL cfg.sentry.baseURL
  { sentry := { cfg.sentry with
                baseURL := sentryBaseURL
                instances := migrateInstances cfg.sentry.apiKey
                  { name := "Default Sentry", apiKey := cfg.sentry.apiKey,
                    baseURL := sentryBaseURL : SentryInstance }
                  cfg.sentry.instances }
    linear := { cfg.linear with
                instances := migrateInstances cfg.linear.apiKey
                  { name := "Default Linear", apiKey := cfg.linear.apiKey : LinearInstance }
                  cfg.linear.instances }
    connections := migrateConnections cfg.connections cfg.sentry.projects (legacyMappings cfg) }

/-- removeLinearInstance embeds the Remove Instance branch of
`editLinearInstance` (releasemanager/implementations.go): when any
connection references the key as its Linear instance the removal is
refused with an error and nothing changes; otherwise (after the user
confirms) the key is deleted from the Linear instances map and the
rest of the configuration is untouched. -/
def removeLinearInstance (cfg : Config) (key : String) : Except String Config :=
  if cfg.connections.any (fun conn => conn.linearInstance == key) then
    .error "Cannot remove instance: it is used in one or more connections"
  else
    .ok { cfg with
          linear := { cfg.linear with
                      instances := cfg.linear.instances.filter (fun p => p.1 ≠ key) } }

/-- removeSentryInstance embeds the Remove Instance branch of
`editSentryInstance`: the same in-use check over the Sentry side of
each connection, then deletion from the Sentry instances map. -/
def removeSentryInstance (cfg : Config) (key : String) : Except String Config :=
  if cfg.connections.any (fun conn => conn.sentryInstance == key) then
    .error "Cannot remove instance: it is used in one or more connections"
  else
    .ok { cfg with
          sentry := { cfg.sentry with
                      instances := cfg.sentry.instances.filter (fun p => p.1 ≠ key) } }

/-- addProjectMapping embeds the duplicate check and append of
`Module.addProjectMapping` (bugmanager): if the chosen Sentry
org/project pair is already mapped in the connection the addition is
refused, otherwise the mapping is appended to the connection. -/
def addProjectMapping (conn : BugManagerConnection) (mapping : BugManagerProjectMapping) :
    Except String BugManagerConnection :=
  if conn.projectMappings.any (fun m2 =>
      m2.sentryOrganization == mapping.sentryOrganization &&
      m2.sentryProject == mapping.sentryProject) then
    .error "This Sentry project is already mapped in this connection."
  else
    .ok { conn with projectMappings := conn.projectMappings ++ [mapping] }

/-- mappingPair is the source-side identity of a project mapping: its
(sentryOrganization, sentryProject) pair. -/
def mappingPair (m : BugManagerProjectMapping) : String × String :=
  (m.sentryOrganization, m.sentryProject)

/-- uniqueMappings states the invariant that the source org/project
pairs of the mappings of a connection are pairwise distinct. -/
def uniqueMappings (conn : BugManagerConnection) : Prop :=
  conn.projectMappings.Pairwise (fun a b => mappingPair a ≠ mappingPair b)

instance (conn : BugManagerConnection) : Decidable (uniqueMappings conn) := by
  unfold uniqueMappings; infer_instance

/-- LinearLabel mirrors the Go struct of the same name (id, name,
color). -/
structure LinearLabel where
  id : String
  name : String
  color : String
  deriving Repr, DecidableEq

/-- LabelStore models the sink-side label state that
`LinearClient.GetOrCreateLabel` reads and writes through the GraphQL
api: the labels that exist per team, plus a counter from which the
server draws fresh label ids. -/
structure LabelStore where
  labels : List (String × LinearLabel)
  nextId : Nat
  deriving Repr, DecidableEq

/-- lookupLabel models the first GraphQL query of `GetOrCreateLabel`:
the labels of the team filtered by exact name equality, taking the
first node if any. -/
def lookupLabel (s : LabelStore) (teamId lname : String) : Option LinearLabel :=
  ((s.labels.filter (fun p => p.1 == teamId && p.2.name == lname)).map (fun p => p.2)).head?

/-- GetOrCreateLabel embeds `LinearClient.GetOrCreateLabel` over the
label store: return the id of the first exact-name match if one
exists, otherwise create the label (fresh id, given name and color)
and return the new id together with the grown store. -/
def GetOrCreateLabel (s : LabelStore) (teamId lname color : String) : String × LabelStore :=
  match lookupLabel s teamId lname with
  | some l => (l.id, s)
  | none =>
    let newLabel : LinearLabel := { id := "label-" ++ toString s.nextId, name := lname, color := color }
    (newLabel.id, { labels := s.labels ++ [(teamId, newLabel)], nextId := s.nextId + 1 })

/-- countLabels counts how many labels of the given team carry the
given name in the store. -/
def countLabels (s : LabelStore) (teamId lname : String) : Nat :=
  (s.labels.filter (fun p => p.1 == teamId && p.2.name == lname)).length

/-- LinearWorkflowState mirrors the Go struct of the same name. -/
structure LinearWorkflowState where
  id : String
  name : String
  type : String
  color : String
  deriving Repr, DecidableEq

/-- getLabelColor mirrors `Module.getLabelColor`: the fixed color
table, then the `level:` and `platform:` prefix fallbacks, then the
neutral default. -/
def getLabelColor (label : String) : String :=
  match label with
  | "bug" => "#e11d48"
  | "sentry" => "#8b5cf6"
  | "level:fatal" => "#991b1b"
  | "level:error" => "#dc2626"
  | "level:warning" => "#f59e0b"
  | "level:info" => "#3b82f6"
  | "high-impact" => "#ef4444"
  | "medium-impact" => "#f97316"
  | _ =>
    if label.startsWith "level:" then "#8b5cf6"
    else if label.startsWith "platform:" then "#10b981"
    else "#6b7280"

/-- SinkCall is one Linear-side api call that `syncBugs` can make:
the workflow-state read, a label get-or-create, or the issue
creation. -/
inductive SinkCall where
  | getWorkflowStates (teamId : String)
  | getOrCreateLabel (teamId lname color : String)
  | createIssue (teamId projectId title : String) (labelIds : List String)
      (priority : Int) (stateId : String)
  deriving Repr, DecidableEq

/-- UserScript supplies the interactive inputs of one `syncBugs`
invocation: the list selections (`none` is a cancelled prompt) and the
confirmation answers. -/
structure UserScript where
  connChoice : Option Nat
  mappingChoice : Option Nat
  issueChoice : Option Nat
  stateChoice : Option Nat
  confirmCreate : Bool
  confirmResolve : Bool
  deriving Repr, DecidableEq

/-- SentryOracle supplies the outcomes of the source-side reads of one
`syncBugs` invocation: the unresolved-issue fetch, the issue-detail
fetch (`none` is a transport error) and whether the best-effort event
fetch succeeded (its content only feeds the description). -/
structure SentryOracle where
  unresolvedIssues : Option (List SentryIssue)
  issueDetails : Option SentryIssue
  eventOk : Bool

/-- SinkOracle supplies the outcomes of the sink-side calls: the
workflow-state read (`none` is a failure, tolerated with an empty
list) and the id returned by each get-or-create label call (`none` is
a failure, which skips the label). -/
structure SinkOracle where
  workflowStates : Option (List LinearWorkflowState)
  labelResult : String → String → String → Option String

/-- syncBugsSinkCalls traces the Linear-side calls of one invocation of
`Module.syncBugs` (module.go), mirroring its control flow: return with
no calls when no connection is configured, a selection is cancelled
(or out of range, unreachable through the real list prompt), the
selected connection has no mappings, an instance key dangles, a
required Sentry read fails, no unresolved issue exists, or the final
creation confirmation is declined; otherwise fetch workflow states,
get-or-create every aggregated label, and create the issue.  The
trailing source-side resolve and the optional recursive re-entry
create no sink calls of their own and are outside this trace. -/
def syncBugsSinkCalls (cfg : Config) (script : UserScript) (src : SentryOracle)
    (snk : SinkOracle) : List SinkCall :=
  if cfg.connections = [] then []
  else
    let connSel :=
      if cfg.connections.length = 1 then cfg.connections.head?
      else script.connChoice.bind (fun i => cfg.connections.get? i)
    match connSel with
    | none => []
    | some conn =>
      if conn.projectMappings = [] then []
      else
        match lookupA cfg.sentry.instances conn.sentryInstance,
              lookupA cfg.linear.instances conn.linearInstance with
        | some _, some _ =>
          let mappingSel :=
            if conn.projectMappings.length = 1 then conn.projectMappings.head?
            else script.mappingChoice.bind (fun i => conn.projectMappings.get? i)
          (match mappingSel with
          | none => []
          | some mapping =>
            match src.unresolvedIssues with
            | none => []
            | some issues =>
              if issues = [] then []
              else
                match script.issueChoice.bind (fun i => issues.get? i) with
                | none => []
                | some _selected =>
                  match src.issueDetails with
                  | none => []
                  | some issueDetails =>
                    if ¬ script.confirmCreate then []
                    else
                      let states := snk.workflowStates.getD []
                      let stateId :=
                        if states = [] then ""
                        else
                          match script.stateChoice.bind (fun i => states.get? i) with
                          | some st => st.id
                          | none => ""
                      let labels := allLabels mapping issueDetails
                      let labelCalls := labels.map (fun l =>
                        SinkCall.getOrCreateLabel mapping.linearTeamId l (getLabelColor l))
                      let labelIds := labels.filterMap (fun l =>
                        snk.labelResult mapping.linearTeamId l (getLabelColor l))
                      SinkCall.getWorkflowStates mapping.linearTeamId ::
                        labelCalls ++
                          [SinkCall.createIssue mapping.linearTeamId mapping.linearProjectId
                            (prepareBugDetails issueDetails).title labelIds
                            (prepareBugDetails issueDetails).priority stateId])
        | _, _ => []

/-- getUnresolvedIssuesParams builds the query parameters that
`SentryClient.GetUnresolvedIssues` sets on its url: the four
`params.Set` calls over an empty `url.Values`, modelled as an
association list updated by set-or-append. -/
def valuesSet (vs : List (String × String)) (k v : String) : List (String × String) :=
  if vs.any (fun p => p.1 == k) then
    vs.map (fun p => if p.1 == k then (p.1, v) else p)
  else vs ++ [(k, v)]

/-- getUnresolvedIssuesParams is the parameter map after the four
`params.Set` calls of `GetUnresolvedIssues`: query, limit, sort and
statsPeriod. -/
def getUnresolvedIssuesParams (limit : Int) : List (String × String) :=
  let params : List (String × String) := []
  let params := valuesSet params "query" "is:unresolved"
  let params := valuesSet params "limit" (toString limit)
  let params := valuesSet params "sort" "date"
  let params := valuesSet params "statsPeriod" "24h"
  params

/-- sampleIssue builds a concrete SentryIssue with the given level and
user count and the short id and title of the end-to-end example of the
specification. -/
def sampleIssue (level : String) (userCount : Int) : SentryIssue :=
  { id := "1", shortId := "ABC-1", title := "NullPointer", culprit := "app.handler",
    permalink := "https://sentry.example/1", count := "10", userCount := userCount,
    level := level, platform := "python", status := "unresolved" }

/-- mappingBugSentry is a concrete mapping with the default labels of
the end-to-end example. -/
def mappingBugSentry : BugManagerProjectMapping :=
  { sentryOrganization := "myorg", sentryProject := "myproj", linearTeamId := "T1",
    linearProjectId := "P1", linearProjectName := "Proj", defaultLabels := ["bug", "sentry"] }

/-- C1: for every issue whose severity level is one of fatal, critical,
error, warning, info, debug, the derived priority equals the base
severity mapping escalated by impact (a user count above 100 forces 1,
a count above 50 caps at 2), and the escalation never loosens the base
urgency. -/
theorem calculatePriority_matches_spec (issue : SentryIssue)
    (h : issue.level ∈ (["fatal", "critical", "error", "warning", "info", "debug"] : List String)) :
    calculatePriority issue = specPriority issue ∧
    calculatePriority issue ≤ specPriorityBase issue.level ∧
    (issue.userCount > 100 → calculatePriority issue = 1) ∧
    (issue.userCount > 50 → calculatePriority issue ≤ 2) := by
  simp only [List.mem_cons, List.not_mem_nil, or_false] at h
  rcases h with h | h | h | h | h | h <;>
    simp only [calculatePriority, specPriority, specPriorityBase, h] <;>
    split_ifs <;> simp_all

/-- Witness for C1 at the particular inputs of the claim: severity
error with user counts 10, 60 and 150. -/
theorem calculatePriority_matches_spec_witness :
    calculatePriority (sampleIssue "error" 10) = specPriority (sampleIssue "error" 10) ∧
    calculatePriority (sampleIssue "error" 10) = 2 ∧
    calculatePriority (sampleIssue "error" 60) ≤ 2 ∧
    calculatePriority (sampleIssue "error" 150) = 1 :=
  ⟨(calculatePriority_matches_spec (sampleIssue "error" 10) (by decide)).1,
   by decide,
   (calculatePriority_matches_spec (sampleIssue "error" 60) (by decide)).2.2.2 (by decide),
   (calculatePriority_matches_spec (sampleIssue "error" 150) (by decide)).2.2.1 (by decide)⟩

/-- Counterexample for C2: with short id ABC-1 and title NullPointer
the derived title is `[Sentry ABC-1] NullPointer`, not the
`[Source ABC-1] NullPointer` stated by the claim — the source prefix
the code writes is the literal `Sentry`. -/
theorem title_source_prefix_counterexample :
    (sampleIssue "error" 75).shortId = "ABC-1" ∧
    (sampleIssue "error" 75).title = "NullPointer" ∧
    (prepareBugDetails (sampleIssue "error" 75)).title ≠ "[Source ABC-1] NullPointer" ∧
    (prepareBugDetails (sampleIssue "error" 75)).title = "[Sentry ABC-1] NullPointer" := by
  refine ⟨rfl, rfl, ?_, rfl⟩
  decide

/-- C2 amended: the derived sink issue title is the source prefix
`Sentry` and the short id in square brackets followed by the issue
title, `[Sentry <shortId>] <title>`; in particular short id ABC-1 with
title NullPointer yields `[Sentry ABC-1] NullPointer`. -/
theorem sink_title_format :
    (∀ issue : SentryIssue,
      (prepareBugDetails issue).title = "[Sentry " ++ issue.shortId ++ "] " ++ issue.title) ∧
    (prepareBugDetails (sampleIssue "error" 75)).title = "[Sentry ABC-1] NullPointer" :=
  ⟨fun _ => rfl, rfl⟩

/-- Counterexample for C3: an issue with user count 150 exceeds 50,
yet its label set carries high-impact only — the code adds
medium-impact only when the count exceeds 50 without exceeding 100. -/
theorem synced_labels_counterexample :
    (sampleIssue "error" 150).userCount > 50 ∧
    "medium-impact" ∉ allLabels mappingBugSentry (sampleIssue "error" 150) ∧
    allLabels mappingBugSentry (sampleIssue "error" 150) =
      ["bug", "sentry", "level:error", "platform:python", "high-impact"] := by
  refine ⟨by decide, by decide, rfl⟩

/-- C3 amended: the labels submitted for a synced issue are a superset
of the default labels of the mapping and contain the level and
platform labels; high-impact is added when the user count exceeds 100,
and medium-impact when it exceeds 50 without exceeding 100. -/
theorem synced_labels_superset (mapping : BugManagerProjectMapping) (issue : SentryIssue) :
    (∀ l ∈ mapping.defaultLabels, l ∈ allLabels mapping issue) ∧
    ("level:" ++ issue.level) ∈ allLabels mapping issue ∧
    ("platform:" ++ issue.platform) ∈ allLabels mapping issue ∧
    (issue.userCount > 100 → "high-impact" ∈ allLabels mapping issue) ∧
    (issue.userCount > 50 ∧ issue.userCount ≤ 100 →
      "medium-impact" ∈ allLabels mapping issue) := by
  unfold allLabels getSentryLabels
  refine ⟨fun l hl => List.mem_append_left _ hl, ?_, ?_, fun h => ?_, fun h => ?_⟩ <;>
    refine List.mem_append_right _ ?_ <;>
    split_ifs <;> first | (simp_all; done) | (exfalso; omega)

/-- Witness for C3 at the particular inputs of the claim: user count
75 with default labels bug and sentry yields labels including bug,
sentry, level:error, platform:python and medium-impact. -/
theorem synced_labels_superset_witness :
    "bug" ∈ allLabels mappingBugSentry (sampleIssue "error" 75) ∧
    "sentry" ∈ allLabels mappingBugSentry (sampleIssue "error" 75) ∧
    ("level:" ++ (sampleIssue "error" 75).level) ∈ allLabels mappingBugSentry (sampleIssue "error" 75) ∧
    ("platform:" ++ (sampleIssue "error" 75).platform) ∈ allLabels mappingBugSentry (sampleIssue "error" 75) ∧
    "medium-impact" ∈ allLabels mappingBugSentry (sampleIssue "error" 75) :=
  ⟨(synced_labels_superset mappingBugSentry (sampleIssue "error" 75)).1 "bug" (by decide),
   (synced_labels_superset mappingBugSentry (sampleIssue "error" 75)).1 "sentry" (by decide),
   (synced_labels_superset mappingBugSentry (sampleIssue "error" 75)).2.1,
   (synced_labels_superset mappingBugSentry (sampleIssue "error" 75)).2.2.1,
   (synced_labels_superset mappingBugSentry (sampleIssue "error" 75)).2.2.2.2 (by decide)⟩

/-- C4: loading a configuration in which only legacy fields are
populated (empty instance maps, no connections) synthesizes the
`default` instance for each kind whose legacy credential is non-empty,
preserves every legacy field, and synthesizes exactly one Default
Connection aggregating the legacy mappings precisely when legacy
project mappings existed (a legacy mapping being a legacy Sentry
project entry whose Linear project link resolves in the legacy Linear
table). -/
theorem legacy_migration_roundtrip (cfg : Config)
    (hsi : cfg.sentry.instances = []) (hli : cfg.linear.instances = [])
    (hc : cfg.connections = []) :
    (cfg.sentry.apiKey ≠ "" →
      (migrateConfig cfg).sentry.instances =
        [("default",
          { name := "Default Sentry", apiKey := cfg.sentry.apiKey,
            baseURL := migrateBaseURL cfg.sentry.baseURL })]) ∧
    (cfg.linear.apiKey ≠ "" →
      (migrateConfig cfg).linear.instances =
        [("default", { name := "Default Linear", apiKey := cfg.linear.apiKey })]) ∧
    (migrateConfig cfg).sentry.apiKey = cfg.sentry.apiKey ∧
    (migrateConfig cfg).sentry.baseURL = migrateBaseURL cfg.sentry.baseURL ∧
    (migrateConfig cfg).sentry.projects = cfg.sentry.projects ∧
    (migrateConfig cfg).linear.apiKey = cfg.linear.apiKey ∧
    (migrateConfig cfg).linear.projects = cfg.linear.projects ∧
    ((migrateConfig cfg).connections = [defaultConnection (legacyMappings cfg)] ↔
      legacyMappings cfg ≠ []) ∧
    (legacyMappings cfg = [] → (migrateConfig cfg).connections = []) := by
  refine ⟨?_, ?_, rfl, rfl, rfl, rfl, rfl, ?_, ?_⟩
  · intro hk
    simp [migrateConfig, migrateInstances, hsi, hk]
  · intro hk
    simp [migrateConfig, migrateInstances, hli, hk]
  · by_cases hp : cfg.sentry.projects = []
    · have hm : legacyMappings cfg = [] := by simp [legacyMappings, hp]
      simp [migrateConfig, migrateConnections, hc, hp, hm]
    · by_cases hm : legacyMappings cfg = []
      · simp [migrateConfig, migrateConnections, hc, hp, hm]
      · simp [migrateConfig, migrateConnections, hc, hp, hm]
  · intro hm
    by_cases hp : cfg.sentry.projects = [] <;>
      simp [migrateConfig, migrateConnections, hc, hp, hm]

/-- cfgLegacy is a concrete configuration with only legacy fields
populated: a legacy credential for each kind, one resolvable legacy
project mapping, empty instance maps and no connections. -/
def cfgLegacy : Config :=
  { sentry :=
      { apiKey := "sentry-key", baseURL := "",
        projects := [("app", { organizationSlug := "org", projectSlug := "proj",
                               linearProjectId := "LP" })],
        instances := [] }
    linear :=
      { apiKey := "linear-key",
        projects := [("LP", { teamId := "T1", projectId := "P1", projectName := "Proj",
                              labels := ["bug"] })],
        instances := [] }
    connections := [] }

/-- Witness for C4 at cfgLegacy: both default instances appear and
exactly the one Default Connection is synthesized. -/
theorem legacy_migration_roundtrip_witness :
    (migrateConfig cfgLegacy).sentry.instances =
      [("default", { name := "Default Sentry", apiKey := "sentry-key",
                     baseURL := migrateBaseURL cfgLegacy.sentry.baseURL })] ∧
    (migrateConfig cfgLegacy).linear.instances =
      [("default", { name := "Default Linear", apiKey := "linear-key" })] ∧
    (migrateConfig cfgLegacy).connections =
      [defaultConnection (legacyMappings cfgLegacy)] :=
  ⟨(legacy_migration_roundtrip cfgLegacy rfl rfl rfl).1 (by decide),
   (legacy_migration_roundtrip cfgLegacy rfl rfl rfl).2.1 (by decide),
   ((legacy_migration_roundtrip cfgLegacy rfl rfl rfl).2.2.2.2.2.2.2.1).mpr (by decide)⟩

/-- Defaulting the base URL twice is the same as once. -/
theorem migrateBaseURL_idem (s : String) :
    migrateBaseURL (migrateBaseURL s) = migrateBaseURL s := by
  unfold migrateBaseURL defaultSentryBaseURL
  split_ifs <;> simp_all

/-- Synthesizing the default instance twice is the same as once: the
first run leaves the map non-empty exactly when the credential check
could fire again. -/
theorem migrateInstances_idem {α : Type} (k : String) (v : α) (l : List (String × α)) :
    migrateInstances k v (migrateInstances k v l) = migrateInstances k v l := by
  unfold migrateInstances
  split_ifs <;> simp_all

/-- Synthesizing the legacy connection twice is the same as once. -/
theorem migrateConnections_idem (c : List BugManagerConnection)
    (s : List (String × SentryProjectCfg)) (m : List BugManagerProjectMapping) :
    migrateConnections (migrateConnections c s m) s m = migrateConnections c s m := by
  unfold migrateConnections
  split_ifs <;> simp_all

/-- C5: the load-time migration is idempotent — rerunning it on an
already-migrated configuration changes nothing: no further default
instance and no further connection is synthesized and every field is
unchanged. -/
theorem migrateConfig_idempotent (cfg : Config) :
    migrateConfig (migrateConfig cfg) = migrateConfig cfg := by
  obtain ⟨⟨sk, sb, sp, si⟩, ⟨lk, lp, li⟩, cs⟩ := cfg
  simp only [migrateConfig, legacyMappings, Config.mk.injEq, SentryConfig.mk.injEq,
    LinearConfig.mk.injEq, migrateBaseURL_idem]
  exact ⟨⟨trivial, trivial, trivial, migrateInstances_idem _ _ _⟩,
         ⟨trivial, trivial, migrateInstances_idem _ _ _⟩,
         migrateConnections_idem _ _ _⟩

/-- Deleting a key from an association list makes its lookup fail. -/
theorem lookupA_filter_ne {α : Type} (l : List (String × α)) (key : String) :
    lookupA (l.filter (fun p => p.1 ≠ key)) key = none := by
  have h : List.find? (fun p => p.1 == key) (l.filter (fun p => p.1 ≠ key)) = none := by
    rw [List.find?_eq_none]
    intro x hx
    rw [List.mem_filter] at hx
    simpa using hx.2
  simp [lookupA, h]

/-- C6: removing an instance of either kind fails with an error and
changes nothing whenever some connection references its key as its
instance of that kind; when no connection references it, the removal
succeeds, deletes exactly that key from the instance map of its kind,
and leaves the connection list and the other kind untouched. -/
theorem remove_instance_in_use (cfg : Config) (key : String) :
    ((∃ conn ∈ cfg.connections, conn.linearInstance = key) →
      removeLinearInstance cfg key =
        .error "Cannot remove instance: it is used in one or more connections") ∧
    ((∀ conn ∈ cfg.connections, conn.linearInstance ≠ key) →
      ∃ cfg2, removeLinearInstance cfg key = .ok cfg2 ∧
        lookupA cfg2.linear.instances key = none ∧
        cfg2.linear.instances = cfg.linear.instances.filter (fun p => p.1 ≠ key) ∧
        cfg2.connections = cfg.connections ∧
        cfg2.sentry = cfg.sentry) ∧
    ((∃ conn ∈ cfg.connections, conn.sentryInstance = key) →
      removeSentryInstance cfg key =
        .error "Cannot remove instance: it is used in one or more connections") ∧
    ((∀ conn ∈ cfg.connections, conn.sentryInstance ≠ key) →
      ∃ cfg2, removeSentryInstance cfg key = .ok cfg2 ∧
        lookupA cfg2.sentry.instances key = none ∧
        cfg2.sentry.instances = cfg.sentry.instances.filter (fun p => p.1 ≠ key) ∧
        cfg2.connections = cfg.connections ∧
        cfg2.linear = cfg.linear) := by
  refine ⟨?_, ?_, ?_, ?_⟩
  · rintro ⟨conn, hmem, hk⟩
    unfold removeLinearInstance
    rw [if_pos (List.any_eq_true.mpr ⟨conn, hmem, by simp [hk]⟩)]
  · intro h
    unfold removeLinearInstance
    rw [if_neg]
    · exact ⟨_, rfl, lookupA_filter_ne _ _, rfl, rfl, rfl⟩
    · simp only [List.any_eq_true, beq_iff_eq, not_exists]
      rintro c ⟨hc, e⟩
      exact h c hc e
  · rintro ⟨conn, hmem, hk⟩
    unfold removeSentryInstance
    rw [if_pos (List.any_eq_true.mpr ⟨conn, hmem, by simp [hk]⟩)]
  · intro h
    unfold removeSentryInstance
    rw [if_neg]
    · exact ⟨_, rfl, lookupA_filter_ne _ _, rfl, rfl, rfl⟩
    · simp only [List.any_eq_true, beq_iff_eq, not_exists]
      rintro c ⟨hc, e⟩
      exact h c hc e

/-- cfgConn is a concrete configuration with one connection
referencing the default instance of each kind, plus one unreferenced
spare instance per kind. -/
def cfgConn : Config :=
  { sentry :=
      { apiKey := "", baseURL := "b", projects := [],
        instances := [("default", { name := "S", apiKey := "k", baseURL := "b" }),
                      ("spare", { name := "S2", apiKey := "k2", baseURL := "b" })] }
    linear :=
      { apiKey := "", projects := [],
        instances := [("default", { name := "L", apiKey := "k" }),
                      ("spare", { name := "L2", apiKey := "k2" })] }
    connections :=
      [{ name := "C", linearInstance := "default", sentryInstance := "default",
         projectMappings := [] }] }

/-- Witness for C6 at cfgConn: removing the referenced default
instance of either kind fails, removing the unreferenced spare
succeeds. -/
theorem remove_instance_in_use_witness :
    removeLinearInstance cfgConn "default" =
      .error "Cannot remove instance: it is used in one or more connections" ∧
    removeSentryInstance cfgConn "default" =
      .error "Cannot remove instance: it is used in one or more connections" ∧
    (∃ cfg2, removeLinearInstance cfgConn "spare" = .ok cfg2 ∧
      lookupA cfg2.linear.instances "spare" = none ∧
      cfg2.linear.instances = cfgConn.linear.instances.filter (fun p => p.1 ≠ "spare") ∧
      cfg2.connections = cfgConn.connections ∧
      cfg2.sentry = cfgConn.sentry) :=
  ⟨(remove_instance_in_use cfgConn "default").1 (by decide),
   (remove_instance_in_use cfgConn "default").2.2.1 (by decide),
   (remove_instance_in_use cfgConn "spare").2.1 (by decide)⟩

/-- A label lookup fails exactly when no label of the team carries the
name. -/
theorem lookupLabel_eq_none_iff (s : LabelStore) (t n : String) :
    lookupLabel s t n = none ↔
      s.labels.filter (fun p => p.1 == t && p.2.name == n) = [] := by
  unfold lookupLabel
  cases hf : s.labels.filter (fun p => p.1 == t && p.2.name == n) <;> simp [hf]

/-- GetOrCreateLabel returns the id of an existing exact-name match
without touching the store. -/
theorem GetOrCreateLabel_of_lookup_some (s : LabelStore) (t n c : String) (l : LinearLabel)
    (h : lookupLabel s t n = some l) : GetOrCreateLabel s t n c = (l.id, s) := by
  unfold GetOrCreateLabel; rw [h]

/-- GetOrCreateLabel creates the label when no exact-name match
exists. -/
theorem GetOrCreateLabel_of_lookup_none (s : LabelStore) (t n c : String)
    (h : lookupLabel s t n = none) :
    GetOrCreateLabel s t n c =
      ("label-" ++ toString s.nextId,
       { labels := s.labels ++
           [(t, { id := "label-" ++ toString s.nextId, name := n, color := c })],
         nextId := s.nextId + 1 }) := by
  unfold GetOrCreateLabel; rw [h]

/-- C7: GetOrCreateLabel is idempotent over the label store — a second
call with the same team and name returns the same id and leaves the
store exactly as the first call left it, and the first call creates at
most one label of that name for the team (exactly one when none
existed). -/
theorem GetOrCreateLabel_idempotent (s : LabelStore) (teamId lname c1 c2 : String) :
    (GetOrCreateLabel (GetOrCreateLabel s teamId lname c1).2 teamId lname c2).1
      = (GetOrCreateLabel s teamId lname c1).1 ∧
    (GetOrCreateLabel (GetOrCreateLabel s teamId lname c1).2 teamId lname c2).2
      = (GetOrCreateLabel s teamId lname c1).2 ∧
    countLabels (GetOrCreateLabel s teamId lname c1).2 teamId lname
      ≤ countLabels s teamId lname + 1 ∧
    (countLabels s teamId lname = 0 →
      countLabels (GetOrCreateLabel s teamId lname c1).2 teamId lname = 1) := by
  cases h : lookupLabel s teamId lname with
  | some l =>
    have h1 := GetOrCreateLabel_of_lookup_some s teamId lname c1 l h
    have h2 := GetOrCreateLabel_of_lookup_some s teamId lname c2 l h
    have hne : ¬ s.labels.filter (fun p => p.1 == teamId && p.2.name == lname) = [] := by
      intro hfil
      rw [← lookupLabel_eq_none_iff] at hfil
      rw [h] at hfil
      exact Option.noConfusion hfil
    refine ⟨by rw [h1, h2], by rw [h1, h2], by rw [h1]; simp, ?_⟩
    intro h0
    exfalso
    exact hne (List.length_eq_zero.mp h0)
  | none =>
    have hfil : s.labels.filter (fun p => p.1 == teamId && p.2.name == lname) = [] :=
      (lookupLabel_eq_none_iff s teamId lname).mp h
    have h1 := GetOrCreateLabel_of_lookup_none s teamId lname c1 h
    have hfil2 : ((s.labels ++
        [(teamId, { id := "label-" ++ toString s.nextId, name := lname,
                    color := c1 : LinearLabel })]).filter
          (fun p => p.1 == teamId && p.2.name == lname)) =
        [(teamId, { id := "label-" ++ toString s.nextId, name := lname, color := c1 })] := by
      rw [List.filter_append, hfil]
      simp
    have h2 : lookupLabel (GetOrCreateLabel s teamId lname c1).2 teamId lname =
        some { id := "label-" ++ toString s.nextId, name := lname, color := c1 } := by
      rw [h1]
      unfold lookupLabel
      rw [hfil2]
      rfl
    have h3 := GetOrCreateLabel_of_lookup_some _ teamId lname c2 _ h2
    have hcount : countLabels (GetOrCreateLabel s teamId lname c1).2 teamId lname = 1 := by
      rw [h1]
      unfold countLabels
      rw [hfil2]
      rfl
    have hcount0 : countLabels s teamId lname = 0 := by
      unfold countLabels
      rw [hfil]
      rfl
    refine ⟨?_, ?_, by omega, fun _ => hcount⟩
    · rw [h3, h1]
    · rw [h3]

/-- Witness for C7 on the empty store: creating the label bug for team
T1 twice yields the same id, an unchanged store after the second call,
and exactly one label. -/
theorem GetOrCreateLabel_idempotent_witness :
    (GetOrCreateLabel (GetOrCreateLabel { labels := [], nextId := 0 } "T1" "bug" "#e11d48").2
        "T1" "bug" "#e11d48").1
      = (GetOrCreateLabel { labels := [], nextId := 0 } "T1" "bug" "#e11d48").1 ∧
    countLabels (GetOrCreateLabel { labels := [], nextId := 0 } "T1" "bug" "#e11d48").2
        "T1" "bug" = 1 :=
  ⟨(GetOrCreateLabel_idempotent { labels := [], nextId := 0 } "T1" "bug" "#e11d48" "#e11d48").1,
   (GetOrCreateLabel_idempotent { labels := [], nextId := 0 } "T1" "bug" "#e11d48"
      "#e11d48").2.2.2 (by decide)⟩

/-- C8: declining the final creation confirmation makes the sync
perform zero sink-side calls — no workflow-state read, no label lookup
or creation, no issue creation — for every configuration, source
outcome and sink outcome, so the sink state is untouched. -/
theorem cancel_sync_no_sink_calls (cfg : Config) (script : UserScript)
    (src : SentryOracle) (snk : SinkOracle)
    (h : script.confirmCreate = false) :
    syncBugsSinkCalls cfg script src snk = [] := by
  unfold syncBugsSinkCalls
  split_ifs
  · rfl
  repeat' first
    | rfl
    | (exact absurd rfl (by simp_all))
    | split
    | simp_all

/-- cfgSync is a concrete configuration ready to sync: one connection
with one mapping and both referenced instances present. -/
def cfgSync : Config :=
  { sentry :=
      { apiKey := "", baseURL := "b", projects := [],
        instances := [("default", { name := "S", apiKey := "k", baseURL := "b" })] }
    linear :=
      { apiKey := "", projects := [],
        instances := [("default", { name := "L", apiKey := "k" })] }
    connections :=
      [{ name := "C", linearInstance := "default", sentryInstance := "default",
         projectMappings := [mappingBugSentry] }] }

/-- Witness for C8: a fully scripted run over cfgSync that reaches the
final confirmation and declines performs no sink call. -/
theorem cancel_sync_no_sink_calls_witness :
    syncBugsSinkCalls cfgSync
      { connChoice := some 0, mappingChoice := some 0, issueChoice := some 0,
        stateChoice := some 0, confirmCreate := false, confirmResolve := true }
      { unresolvedIssues := some [sampleIssue "error" 75],
        issueDetails := some (sampleIssue "error" 75), eventOk := true }
      { workflowStates := some [], labelResult := fun _ _ _ => some "lid" } = [] :=
  cancel_sync_no_sink_calls cfgSync
    { connChoice := some 0, mappingChoice := some 0, issueChoice := some 0,
      stateChoice := some 0, confirmCreate := false, confirmResolve := true }
    { unresolvedIssues := some [sampleIssue "error" 75],
      issueDetails := some (sampleIssue "error" 75), eventOk := true }
    { workflowStates := some [], labelResult := fun _ _ _ => some "lid" } rfl

/-- Filtering-and-mapping a list preserves pairwise distinctness of a
key when the partial map preserves that key. -/
theorem pairwise_filterMap_of_pairwise {α β γ : Type} (f : α → Option β) (g : α → γ)
    (gk : β → γ) (hf : ∀ a b, f a = some b → gk b = g a) :
    ∀ l : List α, l.Pairwise (fun a b => g a ≠ g b) →
      (l.filterMap f).Pairwise (fun a b => gk a ≠ gk b) := by
  intro l h
  induction l with
  | nil => simp
  | cons x xs ih =>
    rw [List.pairwise_cons] at h
    obtain ⟨hx, htl⟩ := h
    rw [List.filterMap_cons]
    cases hfx : f x with
    | none => exact ih htl
    | some b =>
      rw [List.pairwise_cons]
      refine ⟨?_, ih htl⟩
      intro c hc
      rw [List.mem_filterMap] at hc
      obtain ⟨y, hy, hfy⟩ := hc
      rw [hf x b hfx, hf y c hfy]
      exact hx y hy

/-- When the legacy Sentry project entries have pairwise distinct
(org, project) slugs, the migrated mapping list has pairwise distinct
source pairs. -/
theorem legacyMappings_pairwise (cfg : Config)
    (h : cfg.sentry.projects.Pairwise (fun a b =>
      (a.2.organizationSlug, a.2.projectSlug) ≠ (b.2.organizationSlug, b.2.projectSlug))) :
    (legacyMappings cfg).Pairwise (fun a b => mappingPair a ≠ mappingPair b) := by
  unfold legacyMappings
  refine pairwise_filterMap_of_pairwise _
    (fun p => (p.2.organizationSlug, p.2.projectSlug)) mappingPair ?_ _ h
  intro a b hab
  cases hl : lookupA cfg.linear.projects a.2.linearProjectId with
  | none =>
    simp only [hl] at hab
    exact Option.noConfusion hab
  | some lp =>
    simp only [hl] at hab
    cases Option.some.inj hab
    rfl

/-- C9 amended: adding a mapping whose (sourceOrg, sourceProject) pair
already exists in the connection is rejected; adding a fresh pair
preserves pairwise distinctness; and the legacy migration yields only
connections with pairwise distinct pairs provided the legacy table
itself has no two entries sharing an (org, project) pair — with
duplicate legacy entries it copies the duplicates verbatim (see the
counterexample). -/
theorem mapping_pairs_unique (conn : BugManagerConnection)
    (m : BugManagerProjectMapping) (cfg : Config) :
    ((∃ m2 ∈ conn.projectMappings, mappingPair m2 = mappingPair m) →
      addProjectMapping conn m =
        .error "This Sentry project is already mapped in this connection.") ∧
    (uniqueMappings conn → (∀ m2 ∈ conn.projectMappings, mappingPair m2 ≠ mappingPair m) →
      addProjectMapping conn m =
        .ok { conn with projectMappings := conn.projectMappings ++ [m] } ∧
      uniqueMappings { conn with projectMappings := conn.projectMappings ++ [m] }) ∧
    (cfg.connections = [] →
      cfg.sentry.projects.Pairwise (fun a b =>
        (a.2.organizationSlug, a.2.projectSlug) ≠ (b.2.organizationSlug, b.2.projectSlug)) →
      ∀ c ∈ (migrateConfig cfg).connections, uniqueMappings c) := by
  refine ⟨?_, ?_, ?_⟩
  · rintro ⟨m2, hmem, hpair⟩
    unfold addProjectMapping
    rw [if_pos]
    rw [List.any_eq_true]
    refine ⟨m2, hmem, ?_⟩
    rw [mappingPair, mappingPair, Prod.mk.injEq] at hpair
    simp [hpair.1, hpair.2]
  · intro hu hno
    unfold addProjectMapping
    rw [if_neg]
    · refine ⟨rfl, ?_⟩
      unfold uniqueMappings at hu ⊢
      rw [List.pairwise_append]
      refine ⟨hu, by simp, ?_⟩
      intro a ha b hb
      rw [List.mem_singleton] at hb
      subst hb
      exact hno a ha
    · rw [List.any_eq_true]
      rintro ⟨m2, hmem, hpred⟩
      rw [Bool.and_eq_true, beq_iff_eq, beq_iff_eq] at hpred
      exact hno m2 hmem (by rw [mappingPair, mappingPair, hpred.1, hpred.2])
  · intro hc hp c hcmem
    by_cases hpj : cfg.sentry.projects = []
    · simp [migrateConfig, migrateConnections, hc, hpj] at hcmem
    · by_cases hm : legacyMappings cfg = []
      · simp [migrateConfig, migrateConnections, hc, hpj, hm] at hcmem
      · simp [migrateConfig, migrateConnections, hc, hpj, hm] at hcmem
        subst hcmem
        unfold uniqueMappings defaultConnection
        exact legacyMappings_pairwise cfg hp

/-- cfgDup is a legacy configuration whose flat Sentry table holds two
entries with the same (org, project) slugs, both linked to the same
Linear project. -/
def cfgDup : Config :=
  { sentry :=
      { apiKey := "", baseURL := "b",
        projects :=
          [("a", { organizationSlug := "org", projectSlug := "proj", linearProjectId := "LP" }),
           ("b", { organizationSlug := "org", projectSlug := "proj", linearProjectId := "LP" })],
        instances := [] }
    linear :=
      { apiKey := "",
        projects := [("LP", { teamId := "T1", projectId := "P1", projectName := "Proj",
                              labels := [] })],
        instances := [] }
    connections := [] }

/-- Counterexample for C9: migrating cfgDup synthesizes a connection
whose two mappings share the (org, proj) source pair, so the claimed
invariant fails on a migration-produced connection. -/
theorem mapping_pairs_unique_counterexample :
    (migrateConfig cfgDup).connections.length = 1 ∧
    ∀ c ∈ (migrateConfig cfgDup).connections, ¬ uniqueMappings c := by
  refine ⟨rfl, ?_⟩
  decide

/-- Witness for C9 on concrete inputs: a duplicate pair is rejected, a
fresh pair is appended preserving distinctness, and migrating
cfgLegacy (whose legacy table has distinct pairs) yields only
connections with distinct pairs. -/
theorem mapping_pairs_unique_witness :
    addProjectMapping
        { name := "C", linearInstance := "default", sentryInstance := "default",
          projectMappings := [mappingBugSentry] } mappingBugSentry =
      .error "This Sentry project is already mapped in this connection." ∧
    uniqueMappings
      { name := "C", linearInstance := "default", sentryInstance := "default",
        projectMappings := [mappingBugSentry] ++
          [{ mappingBugSentry with sentryProject := "other" }] } ∧
    (∀ c ∈ (migrateConfig cfgLegacy).connections, uniqueMappings c) :=
  ⟨(mapping_pairs_unique
      { name := "C", linearInstance := "default", sentryInstance := "default",
        projectMappings := [mappingBugSentry] } mappingBugSentry cfgLegacy).1
      ⟨mappingBugSentry, by decide⟩,
   ((mapping_pairs_unique
      { name := "C", linearInstance := "default", sentryInstance := "default",
        projectMappings := [mappingBugSentry] }
      { mappingBugSentry with sentryProject := "other" } cfgLegacy).2.1
      (by decide) (by decide)).2,
   (mapping_pairs_unique
      { name := "C", linearInstance := "default", sentryInstance := "default",
        projectMappings := [mappingBugSentry] } mappingBugSentry cfgLegacy).2.2
      rfl (by decide)⟩

/-- C10: for every limit, GetUnresolvedIssues constructs its url with
exactly the four parameters query=is:unresolved, limit=<limit>,
sort=date and statsPeriod=24h — beyond unresolved filtering, recency
sort and the bound, the candidate list is restricted to a 24-hour
statistics window and nothing else. -/
theorem getUnresolvedIssues_params (limit : Int) :
    getUnresolvedIssuesParams limit =
      [("query", "is:unresolved"), ("limit", toString limit),
       ("sort", "date"), ("statsPeriod", "24h")] ∧
    lookupA (getUnresolvedIssuesParams limit) "statsPeriod" = some "24h" ∧
    lookupA (getUnresolvedIssuesParams limit) "query" = some "is:unresolved" ∧
    lookupA (getUnresolvedIssuesParams limit) "sort" = some "date" ∧
    lookupA (getUnresolvedIssuesParams limit) "limit" = some (toString limit) ∧
    (getUnresolvedIssuesParams limit).map Prod.fst =
      ["query", "limit", "sort", "statsPeriod"] := by
  have h : getUnresolvedIssuesParams limit =
      [("query", "is:unresolved"), ("limit", toString limit),
       ("sort", "date"), ("statsPeriod", "24h")] := by
    simp [getUnresolvedIssuesParams, valuesSet]
  refine ⟨h, ?_, ?_, ?_, ?_, ?_⟩ <;> rw [h] <;> rfl
